import Mathlib

/-!
Verification development for the stop-extraction and route-resolution
pipeline of the DRT dashboard (src/app.py).

The embedding models, over exact rationals:
* the stop extractor `load_data` (app.py lines 23-81): per-route geometry
  flattening and stop emission, with per-route failure handling;
* the snapping loop (lines 729-773): catalog lookup by name and projection
  of a stop onto the nearest road-graph edge;
* the route-generation block behind the optimize button (lines 776-823):
  one Mapbox directions request per consecutive snapped pair, per-leg
  failure handling, aggregation, and the conditional session-state commit;
* `load_graph` (lines 708-719): the road-network request parameters and the
  argument-keyed memoization of `st.cache_data`.

Floating-point coordinates and metrics are modelled as rationals; the
external world (shapefile reads, HTTP responses, osmnx fetches) is passed
in as explicit data, exactly as the code consumes it.
-/

namespace DRT

/-! ### Stop extractor: `load_data` (app.py lines 23-81) -/

/-- A stop record, mirroring the dict appended to `all_stops`
(app.py lines 52-59). -/
structure Stop where
  name : String
  route : String
  lon : ℚ
  lat : ℚ
  stop_id : String
  zone : String
deriving DecidableEq

/-- Geometry of a route's first feature: a LineString (has `.coords`),
a MultiLineString (has `.geoms`), or anything else (lines 40-48). -/
inductive Geom where
  | line (coords : List (ℚ × ℚ))
  | multiline (lines : List (List (ℚ × ℚ)))
  | unsupported
deriving DecidableEq

/-- Outcome of `gpd.read_file` for one route: the read raises, the frame is
empty, or it yields a first geometry (lines 30-37). -/
inductive RouteInput where
  | loadFail (msg : String)
  | emptyData
  | geomData (g : Geom)
deriving DecidableEq

/-- Coordinate flattening (lines 40-48): LineString coords as-is,
MultiLineString constituent lines concatenated in order, other geometry
types rejected with a warning. -/
def flattenGeom : Geom → Option (List (ℚ × ℚ))
  | .line cs => some cs
  | .multiline ls => some ls.flatten
  | .unsupported => none

/-- Route display name, `f"DRT-{i}호선"`. -/
def routeName (i : ℕ) : String := "DRT-" ++ toString i ++ "호선"

/-- One stop built from flattened coordinate `j` (0-based) of route `i`
(lines 51-59). -/
def mkStop (i j : ℕ) (c : ℚ × ℚ) : Stop :=
  { name := routeName i ++ " " ++ toString (j + 1) ++ "번 정류장"
  , route := routeName i
  , lon := c.1
  , lat := c.2
  , stop_id := "drt_" ++ toString i ++ "_" ++ toString (j + 1)
  , zone := "Zone-" ++ toString (j / 3 + 1) }

/-- The stop-emission loop `for j, (lon, lat) in enumerate(coords)`
starting at index `j`. -/
def routeStopsAux (i : ℕ) : ℕ → List (ℚ × ℚ) → List Stop
  | _, [] => []
  | j, c :: cs => mkStop i j c :: routeStopsAux i (j + 1) cs

/-- All stops of route `i`: one stop per flattened coordinate, in order. -/
def routeStops (i : ℕ) (cs : List (ℚ × ℚ)) : List Stop := routeStopsAux i 0 cs

/-- Warning emitted when a route's shapefile read raises (line 62). -/
def loadFailWarning (i : ℕ) (msg : String) : String :=
  routeName i ++ " 로드 실패: " ++ msg

/-- Warning emitted for an unsupported geometry type (line 47). -/
def unsupportedWarning (i : ℕ) : String :=
  routeName i ++ ": 지원하지 않는 geometry 타입입니다."

/-- One iteration of the route loop: stops contributed and warnings
emitted for route `i` (lines 30-63). -/
def processRoute (i : ℕ) : RouteInput → List Stop × List String
  | .loadFail msg => ([], [loadFailWarning i msg])
  | .emptyData => ([], [])
  | .geomData g =>
      match flattenGeom g with
      | none => ([], [unsupportedWarning i])
      | some cs => (routeStops i cs, [])

/-- The route loop from loop index `i` onward, accumulating `all_stops`
and the warnings, continuing past every per-route failure. -/
def loadDataAux : ℕ → List RouteInput → List Stop × List String
  | _, [] => ([], [])
  | i, inp :: rest =>
      ((processRoute i inp).1 ++ (loadDataAux (i + 1) rest).1,
       (processRoute i inp).2 ++ (loadDataAux (i + 1) rest).2)

/-- `load_data`: the whole extraction loop, `for i in range(1, 5)` in the
source generalised to any list of per-route read outcomes, loop index
starting at 1. Returns the flat stop catalog plus the warnings. -/
def load_data (inputs : List RouteInput) : List Stop × List String :=
  loadDataAux 1 inputs

/-- Modelled from the spec: the haversine great-circle distance with Earth
radius 6,371,000 m that §4.1 step 2 prescribes for the adjacent-dedup pass.
No such computation exists anywhere in src/app.py; this definition only
serves to state the spec's dedup claim against the code. -/
noncomputable def specHaversine (lon1 lat1 lon2 lat2 : ℝ) : ℝ :=
  2 * 6371000 * Real.arcsin (Real.sqrt
    (Real.sin ((lat2 - lat1) * (Real.pi / 180) / 2) ^ 2 +
      Real.cos (lat1 * (Real.pi / 180)) * Real.cos (lat2 * (Real.pi / 180)) *
        Real.sin ((lon2 - lon1) * (Real.pi / 180) / 2) ^ 2))

/-! ### Geometry utilities for snapping (app.py lines 744-761)

The code snaps through shapely: `edges.geometry.distance(pt)` (planar
Euclidean distance from the point to each edge's LineString), `idxmin`
(index of the first row attaining the minimal distance), and
`ln.geometry.interpolate(ln.geometry.project(pt))` (the closest point of
the chosen LineString). The embedding computes the same selection with
squared distances, which `x ↦ x ^ 2` being monotone on distances makes
order-identical to shapely's comparison, and keeps everything in ℚ. -/

/-- A LineString geometry: its ordered coordinates. -/
abbrev Polyline := List (ℚ × ℚ)

/-- Squared planar distance between two points. -/
def dist2 (p q : ℚ × ℚ) : ℚ := (p.1 - q.1) ^ 2 + (p.2 - q.2) ^ 2

/-- Closest point of segment `[a, b]` to `p`: the clamped orthogonal
projection (what `interpolate (project pt)` yields within one segment). -/
def segClosest (a b p : ℚ × ℚ) : ℚ × ℚ :=
  if (b.1 - a.1) ^ 2 + (b.2 - a.2) ^ 2 = 0 then a
  else
    let t := max 0 (min 1
      (((p.1 - a.1) * (b.1 - a.1) + (p.2 - a.2) * (b.2 - a.2)) /
        ((b.1 - a.1) ^ 2 + (b.2 - a.2) ^ 2)))
    (a.1 + t * (b.1 - a.1), a.2 + t * (b.2 - a.2))

/-- Squared distance from `p` to segment `[a, b]`. -/
def segDist2 (a b p : ℚ × ℚ) : ℚ := dist2 p (segClosest a b p)

/-- Consecutive segments of a polyline. -/
def segsOf (pl : Polyline) : List ((ℚ × ℚ) × (ℚ × ℚ)) := pl.zip pl.tail

/-- First element of the list attaining the minimal value of `f`
(the selection `idxmin` makes, ties resolved to the earliest row). -/
def selectMin {α : Type} (f : α → ℚ) : List α → Option α
  | [] => none
  | x :: xs =>
      match selectMin f xs with
      | none => some x
      | some y => if f x ≤ f y then some x else some y

/-- Squared planar distance from `p` to a polyline, shapely's
`geometry.distance(pt)` up to squaring. -/
def polyDist2 (pl : Polyline) (p : ℚ × ℚ) : ℚ :=
  match selectMin (fun ab => segDist2 ab.1 ab.2 p) (segsOf pl) with
  | some ab => segDist2 ab.1 ab.2 p
  | none =>
      match pl with
      | a :: _ => dist2 a p
      | [] => 0

/-- Closest point of a polyline to `p`, the composition
`interpolate (project pt)` of line 760. -/
def closestPointOn (pl : Polyline) (p : ℚ × ℚ) : ℚ × ℚ :=
  match selectMin (fun ab => segDist2 ab.1 ab.2 p) (segsOf pl) with
  | some ab => segClosest ab.1 ab.2 p
  | none =>
      match pl with
      | a :: _ => a
      | [] => p

/-! ### Catalog lookup and the snapping loop (app.py lines 729-773) -/

/-- Catalog lookup by stop name, `gdf[gdf["name"] == nm]` followed by
`.iloc[0]` when the selection is non-empty (lines 737-742). -/
def lookupStop (catalog : List Stop) (nm : String) : Option Stop :=
  (catalog.filter fun s => s.name == nm).head?

/-- One iteration of the snapping loop (lines 735-761): resolve the name
in the catalog (unknown names warn and continue), then either keep the raw
catalog coordinates when the edge set is absent or empty, or project the
point onto the nearest edge, nearest by planar distance, first row on
ties. The `pd.isna` guards of lines 744-746 are vacuous over ℚ, which has
no NaN. -/
def snapOne (catalog : List Stop) (edges : Option (List Polyline)) (nm : String) :
    Option (ℚ × ℚ) :=
  match lookupStop catalog nm with
  | none => none
  | some r =>
      match edges with
      | none => some (r.lon, r.lat)
      | some es =>
          match selectMin (fun e => polyDist2 e (r.lon, r.lat)) es with
          | none => some (r.lon, r.lat)
          | some e => some (closestPointOn e (r.lon, r.lat))

/-- The whole snapping loop over the requested stop names. -/
def snapStops (catalog : List Stop) (edges : Option (List Polyline))
    (names : List String) : List (ℚ × ℚ) :=
  names.filterMap (snapOne catalog edges)

/-- The exception-fallback snapping loop (lines 766-773): raw catalog
coordinates via the same first-match lookup. -/
def snapFallback (catalog : List Stop) (names : List String) : List (ℚ × ℚ) :=
  names.filterMap fun nm => (lookupStop catalog nm).map fun r => (r.lon, r.lat)

/-! ### Route resolver: the optimize-button block (app.py lines 776-823) -/

/-- One route object of a Mapbox directions response: `geometry.coordinates`
plus optional `duration` and `distance` (read with `.get(_, 0)`). -/
structure LegRoute where
  coordinates : List (ℚ × ℚ)
  duration : Option ℚ
  distance : Option ℚ
deriving DecidableEq

/-- Outcome of one leg's `requests.get`: an HTTP response with status and
parsed `routes` array, a timeout, or another request error (lines 793-809). -/
inductive LegResponse where
  | http (status : ℕ) (routes : List LegRoute)
  | timeout
  | error (msg : String)
deriving DecidableEq

/-- Whether a leg's response is accepted: status 200 and a non-empty
`routes` array (lines 795-797). -/
def legAccepts : LegResponse → Bool
  | .http status routes => status == 200 && !routes.isEmpty
  | _ => false

/-- One iteration of the leg loop acting on the accumulator
`(segs, td, tl)` (lines 793-809): an accepted leg contributes the first
route's geometry, duration and distance; any non-200 status, timeout,
request error or empty `routes` array only warns. -/
def stepLeg (r : LegResponse) (acc : List (List (ℚ × ℚ)) × ℚ × ℚ) :
    List (List (ℚ × ℚ)) × ℚ × ℚ :=
  match r with
  | .http status routes =>
      if status = 200 then
        match routes with
        | route :: _ =>
            (route.coordinates :: acc.1,
             route.duration.getD 0 + acc.2.1,
             route.distance.getD 0 + acc.2.2)
        | [] => acc
      else acc
  | .timeout => acc
  | .error _ => acc

/-- The leg loop: accumulated accepted segments, total duration (s) and
total distance (m) over the per-leg responses, in request order. -/
def processLegs (rs : List LegResponse) : List (List (ℚ × ℚ)) × ℚ × ℚ :=
  rs.foldr stepLeg ([], 0, 0)

/-- The first route object of each accepted leg, in order. -/
def acceptedRoutes (rs : List LegResponse) : List LegRoute :=
  rs.filterMap fun r =>
    match r with
    | .http status routes => if status = 200 then routes.head? else none
    | _ => none

/-- The session-state slot the resolver commits into: `order`, `segments`,
`duration`, `distance` (DEFAULTS, app.py lines 116-120). -/
structure SessState where
  order : List String
  segments : List (List (ℚ × ℚ))
  duration : ℚ
  distance : ℚ
deriving DecidableEq

/-- The commit step (lines 811-819): only when at least one segment was
accepted is the state slot overwritten, with duration converted to minutes
(`td / 60`) and distance to kilometres (`tl / 1000`); otherwise the prior
state is kept and an error is shown. -/
def optimizeUpdate (st : SessState) (stops : List String) (rs : List LegResponse) :
    SessState :=
  if (processLegs rs).1.isEmpty then st
  else
    { order := stops
    , segments := (processLegs rs).1
    , duration := (processLegs rs).2.1 / 60
    , distance := (processLegs rs).2.2 / 1000 }

/-- The Mapbox access credential baked into the source (line 17). -/
def MAPBOX_TOKEN : String :=
  "pk.eyJ1IjoiZ3VyMDUxMDgiLCJhIjoiY21lZ2k1Y291MTdoZjJrb2k3bHc3cTJrbSJ9.DElgSQ0rPoRk1eEacPI8uQ"

/-- Base of the directions endpoint (line 786). -/
def MAPBOX_BASE : String := "https://api.mapbox.com/directions/v5/mapbox"

/-- The travel profile the block requests, fixed to driving (line 779). -/
def api_mode : String := "driving"

/-- The `{lon1},{lat1};{lon2},{lat2}` coordinate part of the URL
(line 784). -/
def coordString (p q : ℚ × ℚ) : String :=
  toString p.1 ++ "," ++ toString p.2 ++ ";" ++ toString q.1 ++ "," ++ toString q.2

/-- One directions request as issued on lines 786-794: the templated URL,
the query parameters, the timeout in seconds, plus the coordinate pair the
URL was built from. -/
structure DirectionsRequest where
  url : String
  geometries : String
  overview : String
  access_token : String
  timeout : ℕ
  src : ℚ × ℚ
  dst : ℚ × ℚ
deriving DecidableEq

/-- The request built for one consecutive snapped pair. -/
def mkRequest (p q : ℚ × ℚ) : DirectionsRequest :=
  { url := MAPBOX_BASE ++ "/" ++ api_mode ++ "/" ++ coordString p q
  , geometries := "geojson"
  , overview := "full"
  , access_token := MAPBOX_TOKEN
  , timeout := 10
  , src := p
  , dst := q }

/-- All requests issued by the loop `for i in range(len(snapped) - 1)`
(lines 781-794): exactly one per consecutive pair, in order. -/
def mkRequests (snapped : List (ℚ × ℚ)) : List DirectionsRequest :=
  (snapped.zip snapped.tail).map fun pq => mkRequest pq.1 pq.2

/-! ### Road-network loading: `load_graph` (app.py lines 708-719) -/

/-- The road network as the pipeline consumes it: the edge geometries of
`ox.graph_to_gdfs(G, nodes=False)` (line 724). -/
structure RoadGraph where
  edges : List Polyline
deriving DecidableEq

/-- The parameters of one `ox.graph_from_point` call (lines 711, 715). -/
structure GraphRequest where
  center_lat : ℚ
  center_lon : ℚ
  dist : ℕ
  network_type : String
deriving DecidableEq

/-- The fixed fallback center of line 715, Cheonan city center. -/
def CHEONAN_CENTER : ℚ × ℚ := (368151 / 10000, 1271139 / 10000)

/-- The request `load_graph` issues for a center: fixed 3000 m radius and
network type `"all"`, whatever the travel profile (line 711). -/
def load_graph_request (lat lon : ℚ) : GraphRequest :=
  { center_lat := lat, center_lon := lon, dist := 3000, network_type := "all" }

/-- `load_graph` body (lines 709-717): fetch for the given center, and on
failure retry once at the fixed Cheonan center; `fetch` stands for the
external `ox.graph_from_point`. -/
def load_graph (fetch : GraphRequest → Option RoadGraph) (lat lon : ℚ) :
    Option RoadGraph :=
  match fetch (load_graph_request lat lon) with
  | some g => some g
  | none => fetch (load_graph_request CHEONAN_CENTER.1 CHEONAN_CENTER.2)

/-- Lookup in the model of the `st.cache_data` memo table, keyed by the
call arguments `(lat, lon)`. -/
def cacheLookup (cache : List ((ℚ × ℚ) × Option RoadGraph)) (k : ℚ × ℚ) :
    Option (Option RoadGraph) :=
  (cache.find? fun e => decide (e.1 = k)).map fun e => e.2

/-- `load_graph` as decorated with `@st.cache_data` (line 708): a repeated
center hits the memo table, a new center computes and memoizes. Returns
the result and the updated table. -/
def load_graph_cached (fetch : GraphRequest → Option RoadGraph)
    (cache : List ((ℚ × ℚ) × Option RoadGraph)) (lat lon : ℚ) :
    Option RoadGraph × List ((ℚ × ℚ) × Option RoadGraph) :=
  match cacheLookup cache (lat, lon) with
  | some v => (v, cache)
  | none => (load_graph fetch lat lon,
      cache ++ [((lat, lon), load_graph fetch lat lon)])

/-! ### Concrete data used by witnesses and counterexamples -/

/-- A demo stop at (127, 36.8). -/
def stopA : Stop :=
  { name := "A", route := routeName 1, lon := 127, lat := 184 / 5
  , stop_id := "a", zone := "Zone-1" }

/-- A demo stop at (127.01, 36.81). -/
def stopB : Stop :=
  { name := "B", route := routeName 1, lon := 12701 / 100, lat := 3681 / 100
  , stop_id := "b", zone := "Zone-1" }

/-- A demo road edge running exactly through both demo stops. -/
def demoEdge : Polyline := [(127, 184 / 5), (12701 / 100, 3681 / 100)]

/-- Two catalog entries sharing the name "X" at different coordinates. -/
def dupStopA : Stop :=
  { name := "X", route := routeName 1, lon := 1, lat := 2
  , stop_id := "d1", zone := "Zone-1" }

/-- Second catalog entry named "X". -/
def dupStopB : Stop :=
  { name := "X", route := routeName 1, lon := 3, lat := 4
  , stop_id := "d2", zone := "Zone-1" }

/-- The single accepted route of spec §8 scenario C: two coordinates,
duration 120 s, distance 1500 m. -/
def legC : LegRoute :=
  { coordinates := [(127, 184 / 5), (12701 / 100, 3681 / 100)]
  , duration := some 120, distance := some 1500 }

/-- A demo road-network source that always succeeds with one edge. -/
def demoFetch : GraphRequest → Option RoadGraph := fun _ => some ⟨[demoEdge]⟩

/-! ## Helper lemmas -/

lemma specHaversine_self (lon lat : ℝ) : specHaversine lon lat lon lat = 0 := by
  simp [specHaversine]

lemma routeStopsAux_map_coords (i j : ℕ) (cs : List (ℚ × ℚ)) :
    ((routeStopsAux i j cs).map fun s => (s.lon, s.lat)) = cs := by
  induction cs generalizing j with
  | nil => rfl
  | cons c cs ih => simp [routeStopsAux, mkStop, ih]

lemma routeStopsAux_length (i j : ℕ) (cs : List (ℚ × ℚ)) :
    (routeStopsAux i j cs).length = cs.length := by
  induction cs generalizing j with
  | nil => rfl
  | cons c cs ih => simp [routeStopsAux, ih]

lemma load_data_single_line (cs : List (ℚ × ℚ)) :
    (load_data [RouteInput.geomData (Geom.line cs)]).1 = routeStops 1 cs := by
  simp [load_data, loadDataAux, processRoute, flattenGeom]

lemma selectMin_eq_none {α : Type} {f : α → ℚ} {l : List α}
    (h : selectMin f l = none) : l = [] := by
  cases l with
  | nil => rfl
  | cons x xs =>
      cases hx : selectMin f xs with
      | none => simp [selectMin, hx] at h
      | some z => simp [selectMin, hx] at h; split at h <;> simp_all

lemma selectMin_spec {α : Type} {f : α → ℚ} :
    ∀ {l : List α} {y : α}, selectMin f l = some y → y ∈ l ∧ ∀ z ∈ l, f y ≤ f z := by
  intro l
  induction l with
  | nil => intro y h; simp [selectMin] at h
  | cons x xs ih =>
      intro y h
      rw [selectMin] at h
      cases hx : selectMin f xs with
      | none =>
          rw [hx] at h
          simp only [Option.some.injEq] at h
          subst h
          have hxs := selectMin_eq_none hx
          subst hxs
          refine ⟨List.mem_cons_self _ _, ?_⟩
          intro z hz
          rcases List.mem_singleton.mp hz with rfl
          exact le_refl _
      | some z =>
          rw [hx] at h
          dsimp only at h
          obtain ⟨hzmem, hzmin⟩ := ih hx
          by_cases hf : f x ≤ f z
          · rw [if_pos hf] at h
            simp only [Option.some.injEq] at h
            subst h
            refine ⟨List.mem_cons_self _ _, ?_⟩
            intro w hw
            rcases List.mem_cons.mp hw with rfl | hw
            · exact le_refl _
            · exact le_trans hf (hzmin w hw)
          · rw [if_neg hf] at h
            simp only [Option.some.injEq] at h
            subst h
            refine ⟨List.mem_cons_of_mem _ hzmem, ?_⟩
            intro w hw
            rcases List.mem_cons.mp hw with rfl | hw
            · exact le_of_not_le hf
            · exact hzmin w hw

lemma head_filter_eq_find {α : Type} (p : α → Bool) (l : List α) :
    (l.filter p).head? = l.find? p := by
  induction l with
  | nil => rfl
  | cons x xs ih =>
      by_cases hx : p x
      · rw [List.filter_cons_of_pos hx, List.find?_cons_of_pos _ hx]; rfl
      · rw [List.filter_cons_of_neg (by simpa using hx),
          List.find?_cons_of_neg _ (by simpa using hx), ih]

lemma lookupStop_eq_find (catalog : List Stop) (nm : String) :
    lookupStop catalog nm = catalog.find? fun s => s.name == nm :=
  head_filter_eq_find _ _

lemma lookupStop_first {catalog : List Stop} {nm : String} {s : Stop}
    (h : lookupStop catalog nm = some s) :
    s.name = nm ∧ ∃ i, i < catalog.length ∧ catalog[i]? = some s ∧
      ∀ j t, j < i → catalog[j]? = some t → t.name ≠ nm := by
  induction catalog with
  | nil => simp [lookupStop] at h
  | cons x xs ih =>
      by_cases hx : x.name == nm
      · have hs : s = x := by
          simp only [lookupStop, List.filter_cons, hx, if_true, List.head?_cons,
            Option.some.injEq] at h
          exact h.symm
        subst hs
        refine ⟨by simpa using hx, 0, by simp, by simp, ?_⟩
        intro j t hj
        omega
      · have hx' : (x.name == nm) = false := by simpa using hx
        have hxs : lookupStop xs nm = some s := by
          simpa only [lookupStop, List.filter_cons, hx', Bool.false_eq_true,
            if_false] using h
        obtain ⟨hname, i, hi, hget, hfirst⟩ := ih hxs
        refine ⟨hname, i + 1, by simpa using hi, by simpa using hget, ?_⟩
        intro j t hj hjt
        cases j with
        | zero =>
            simp only [List.getElem?_cons_zero, Option.some.injEq] at hjt
            subst hjt
            simpa using hx
        | succ j' =>
            rw [List.getElem?_cons_succ] at hjt
            exact hfirst j' t (by omega) hjt

lemma stepLeg_skip {r : LegResponse} (h : legAccepts r = false)
    (acc : List (List (ℚ × ℚ)) × ℚ × ℚ) : stepLeg r acc = acc := by
  cases r with
  | http status routes =>
      by_cases hs : status = 200
      · subst hs
        cases routes with
        | nil => rfl
        | cons rt rts => simp [legAccepts] at h
      · simp [stepLeg, hs]
  | timeout => rfl
  | error m => rfl

lemma processLegs_cons (r : LegResponse) (rs : List LegResponse) :
    processLegs (r :: rs) = stepLeg r (processLegs rs) := rfl

lemma processLegs_all_fail {rs : List LegResponse}
    (h : ∀ r ∈ rs, legAccepts r = false) : processLegs rs = ([], 0, 0) := by
  induction rs with
  | nil => rfl
  | cons r rs ih =>
      rw [processLegs_cons, stepLeg_skip (h r (List.mem_cons_self r rs)),
        ih fun r' hr' => h r' (List.mem_cons_of_mem _ hr')]

lemma processLegs_eq_accepted (rs : List LegResponse) :
    processLegs rs =
      ((acceptedRoutes rs).map fun rt => rt.coordinates,
       ((acceptedRoutes rs).map fun rt => rt.duration.getD 0).sum,
       ((acceptedRoutes rs).map fun rt => rt.distance.getD 0).sum) := by
  induction rs with
  | nil => rfl
  | cons r rs ih =>
      rw [processLegs_cons, ih]
      cases r with
      | http status routes =>
          by_cases hs : status = 200
          · subst hs
            cases routes with
            | nil => simp [stepLeg, acceptedRoutes, List.filterMap_cons]
            | cons rt rts => simp [stepLeg, acceptedRoutes, List.filterMap_cons]
          · simp [stepLeg, acceptedRoutes, List.filterMap_cons, hs]
      | timeout => simp [stepLeg, acceptedRoutes, List.filterMap_cons]
      | error m => simp [stepLeg, acceptedRoutes, List.filterMap_cons]

lemma loadDataAux_append_fail (msg : String) (ys : List RouteInput) :
    ∀ (xs : List RouteInput) (i : ℕ),
      (loadDataAux i (xs ++ RouteInput.loadFail msg :: ys)).1
          = (loadDataAux i xs).1 ++ (loadDataAux (i + xs.length + 1) ys).1
        ∧ loadFailWarning (i + xs.length) msg
          ∈ (loadDataAux i (xs ++ RouteInput.loadFail msg :: ys)).2 := by
  intro xs
  induction xs with
  | nil =>
      intro i
      constructor
      · simp [loadDataAux, processRoute]
      · simp [loadDataAux, processRoute]
  | cons x xs ih =>
      intro i
      obtain ⟨h1, h2⟩ := ih (i + 1)
      have harith : i + 1 + xs.length + 1 = i + (x :: xs).length + 1 := by
        simp [List.length_cons]; omega
      have harith2 : i + 1 + xs.length = i + (x :: xs).length := by
        simp [List.length_cons]; omega
      constructor
      · show (processRoute i x).1
            ++ (loadDataAux (i + 1) (xs ++ RouteInput.loadFail msg :: ys)).1
          = ((processRoute i x).1 ++ (loadDataAux (i + 1) xs).1)
            ++ (loadDataAux (i + (x :: xs).length + 1) ys).1
        rw [h1, ← harith, List.append_assoc]
      · show loadFailWarning (i + (x :: xs).length) msg
          ∈ (processRoute i x).2
            ++ (loadDataAux (i + 1) (xs ++ RouteInput.loadFail msg :: ys)).2
        rw [← harith2]
        exact List.mem_append_right _ h2

lemma routeStops_map_coords (i : ℕ) (cs : List (ℚ × ℚ)) :
    ((routeStops i cs).map fun s => (s.lon, s.lat)) = cs :=
  routeStopsAux_map_coords i 0 cs

lemma optimizeUpdate_skip {st : SessState} {stops : List String}
    {rs : List LegResponse} (h : (processLegs rs).1 = []) :
    optimizeUpdate st stops rs = st := by
  simp [optimizeUpdate, h]

lemma optimizeUpdate_commit {st : SessState} {stops : List String}
    {rs : List LegResponse} (h : (processLegs rs).1 ≠ []) :
    optimizeUpdate st stops rs =
      { order := stops
      , segments := (processLegs rs).1
      , duration := (processLegs rs).2.1 / 60
      , distance := (processLegs rs).2.2 / 1000 } := by
  rw [optimizeUpdate, if_neg]
  simpa using h

lemma dist2_self (p : ℚ × ℚ) : dist2 p p = 0 := by
  simp [dist2]

lemma segClosest_left (a b : ℚ × ℚ) : segClosest a b a = a := by
  rw [segClosest]
  split
  · rfl
  · have hnum : (a.1 - a.1) * (b.1 - a.1) + (a.2 - a.2) * (b.2 - a.2) = 0 := by
      ring
    rw [hnum, zero_div]
    norm_num

lemma segClosest_right (a b : ℚ × ℚ)
    (h : (b.1 - a.1) ^ 2 + (b.2 - a.2) ^ 2 ≠ 0) : segClosest a b b = b := by
  rw [segClosest, if_neg h]
  have hnum : (b.1 - a.1) * (b.1 - a.1) + (b.2 - a.2) * (b.2 - a.2)
      = (b.1 - a.1) ^ 2 + (b.2 - a.2) ^ 2 := by
    ring
  rw [hnum, div_self h]
  norm_num

/-! ## Claim theorems -/

/-- C2 counterexample: the extractor performs no adjacent-deduplication
pass at all. A route geometry repeating the same coordinate twice yields
two consecutive emitted stops at the same location, whose haversine
distance is 0 m — not greater than the default `min_gap_meters = 10`,
refuting "the emitted stop sequence never contains two consecutive stops
closer than min_gap_meters apart". -/
theorem no_dedup_counterexample :
    (((load_data [RouteInput.geomData (Geom.line [(127, 184 / 5), (127, 184 / 5)])]).1.map
        fun s => (s.lon, s.lat)) = [(127, 184 / 5), (127, 184 / 5)])
    ∧ specHaversine 127 (184 / 5) 127 (184 / 5) = 0
    ∧ ¬ ((10 : ℝ) < specHaversine 127 (184 / 5) 127 (184 / 5)) := by
  refine ⟨?_, specHaversine_self 127 (184 / 5), ?_⟩
  · rw [load_data_single_line]
    exact routeStops_map_coords 1 _
  · rw [specHaversine_self]
    norm_num

/-- C2 amended: the extractor keeps every flattened coordinate as a stop,
in input order — no deduplication is applied, so consecutive stops may be
arbitrarily close — and the first input point (when one exists) is always
emitted first. -/
theorem extractor_keeps_all_coords (i : ℕ) (cs : List (ℚ × ℚ)) :
    ((routeStops i cs).map fun s => (s.lon, s.lat)) = cs
    ∧ ((routeStops i cs).head?.map fun s => (s.lon, s.lat)) = cs.head?
    ∧ (load_data [RouteInput.geomData (Geom.line cs)]).1 = routeStops 1 cs := by
  refine ⟨routeStops_map_coords i cs, ?_, load_data_single_line cs⟩
  rw [← List.head?_map, routeStops_map_coords]

/-- C3 counterexample: a route whose geometry carries exactly one
coordinate is represented by exactly one stop — no second stop is
synthesized, refuting the "never 0 or 1 stops" guarantee. -/
theorem single_coord_counterexample :
    (load_data [RouteInput.geomData (Geom.line [(127, 184 / 5)])]).1.length = 1
    ∧ ¬ 2 ≤ (load_data [RouteInput.geomData (Geom.line [(127, 184 / 5)])]).1.length := by
  refine ⟨by decide, by decide⟩

/-- C3 amended: the extractor emits exactly one stop per flattened
coordinate, with no minimum-count guarantee: one surviving coordinate
gives exactly 1 stop, zero give 0, and no points are ever synthesized. -/
theorem extractor_stop_count (i : ℕ) (cs : List (ℚ × ℚ)) :
    (routeStops i cs).length = cs.length
    ∧ (load_data [RouteInput.geomData (Geom.line cs)]).1.length = cs.length := by
  refine ⟨routeStopsAux_length i 0 cs, ?_⟩
  rw [load_data_single_line]
  exact routeStopsAux_length 1 0 cs

/-- C5: a failing route read never aborts extraction of the remaining
routes: the catalog is exactly the concatenation of the stops extracted
before and after the failing route (whose own contribution is empty), and
the failure warning is logged. The function is total, so no per-route
failure can raise. -/
theorem load_failure_isolated (xs ys : List RouteInput) (msg : String) :
    (load_data (xs ++ RouteInput.loadFail msg :: ys)).1
        = (loadDataAux 1 xs).1 ++ (loadDataAux (xs.length + 2) ys).1
      ∧ loadFailWarning (xs.length + 1) msg
        ∈ (load_data (xs ++ RouteInput.loadFail msg :: ys)).2 := by
  obtain ⟨h1, h2⟩ := loadDataAux_append_fail msg ys xs 1
  have e1 : 1 + xs.length + 1 = xs.length + 2 := by omega
  have e2 : xs.length + 1 = 1 + xs.length := by omega
  constructor
  · show (loadDataAux 1 (xs ++ RouteInput.loadFail msg :: ys)).1 = _
    rw [h1, e1]
  · show loadFailWarning (xs.length + 1) msg
      ∈ (loadDataAux 1 (xs ++ RouteInput.loadFail msg :: ys)).2
    rw [e2]
    exact h2

/-- C4: a resolve attempt with no accepted segments leaves the stored
session state (order, segments, duration, distance) unchanged, and the
state slot is overwritten only in the branch where at least one segment
was accepted. -/
theorem failed_resolve_preserves_state (st : SessState) (stops : List String)
    (rs : List LegResponse) :
    ((processLegs rs).1 = [] → optimizeUpdate st stops rs = st)
    ∧ ((processLegs rs).1 ≠ [] →
        optimizeUpdate st stops rs =
          { order := stops
          , segments := (processLegs rs).1
          , duration := (processLegs rs).2.1 / 60
          , distance := (processLegs rs).2.2 / 1000 }) :=
  ⟨fun h => optimizeUpdate_skip h, fun h => optimizeUpdate_commit h⟩

/-- C4 witness: a concrete timed-out resolve leaves a concrete prior
state untouched. -/
theorem failed_resolve_witness :
    optimizeUpdate ⟨["x"], [[(2, 3)]], 5, 7⟩ ["a", "b"] [LegResponse.timeout]
      = ⟨["x"], [[(2, 3)]], 5, 7⟩ :=
  (failed_resolve_preserves_state ⟨["x"], [[(2, 3)]], 5, 7⟩ ["a", "b"]
    [LegResponse.timeout]).1 (by decide)

/-- C1 amended: when the remote service fails for every leg, no segment is
accepted, no local road-graph shortest path is computed (none exists in
the code), and the resolve leaves the stored state unchanged while
reporting failure. -/
theorem all_legs_failing_no_fallback (st : SessState) (stops : List String)
    (rs : List LegResponse) (h : ∀ r ∈ rs, legAccepts r = false) :
    processLegs rs = ([], 0, 0) ∧ optimizeUpdate st stops rs = st := by
  have hp := processLegs_all_fail h
  exact ⟨hp, optimizeUpdate_skip (by rw [hp])⟩

/-- C1 amended witness: one leg answered HTTP 500 yields no segments and
an unchanged state. -/
theorem all_legs_failing_witness :
    processLegs [LegResponse.http 500 []] = ([], 0, 0)
    ∧ optimizeUpdate ⟨["p"], [[(1, 1)]], 9, 9⟩ ["A", "B"] [LegResponse.http 500 []]
      = ⟨["p"], [[(1, 1)]], 9, 9⟩ :=
  all_legs_failing_no_fallback ⟨["p"], [[(1, 1)]], 9, 9⟩ ["A", "B"]
    [LegResponse.http 500 []] (by decide)

/-- C1 counterexample: both requested stops lie exactly on a road edge of
the available graph (distance 0, hence within any snap tolerance) and snap
successfully, yet when the single leg's remote call fails (HTTP 500) the
resolve produces no segments at all and the state keeps its prior (empty)
value — no non-empty ResolvedPath is ever produced by a local shortest
path. -/
theorem no_fallback_counterexample :
    snapStops [stopA, stopB] (some [demoEdge]) ["A", "B"]
        = [(127, 184 / 5), (12701 / 100, 3681 / 100)]
    ∧ demoEdge ∈ [demoEdge]
    ∧ polyDist2 demoEdge (127, 184 / 5) = 0
    ∧ polyDist2 demoEdge (12701 / 100, 3681 / 100) = 0
    ∧ (mkRequests [(127, 184 / 5), (12701 / 100, 3681 / 100)]).length = 1
    ∧ processLegs [LegResponse.http 500 []] = ([], 0, 0)
    ∧ optimizeUpdate ⟨[], [], 0, 0⟩ ["A", "B"] [LegResponse.http 500 []]
      = ⟨[], [], 0, 0⟩ := by
  have hden : ((12701 / 100 : ℚ) - (127, 184 / 5).1) ^ 2
      + ((3681 / 100 : ℚ) - (127, 184 / 5).2) ^ 2 ≠ 0 := by
    norm_num
  refine ⟨?_, List.mem_singleton.mpr rfl, ?_, ?_, rfl, rfl, optimizeUpdate_skip rfl⟩
  · show [segClosest (127, 184 / 5) (12701 / 100, 3681 / 100) (127, 184 / 5),
        segClosest (127, 184 / 5) (12701 / 100, 3681 / 100) (12701 / 100, 3681 / 100)]
      = [(127, 184 / 5), (12701 / 100, 3681 / 100)]
    rw [segClosest_left, segClosest_right _ _ hden]
  · show dist2 (127, 184 / 5)
        (segClosest (127, 184 / 5) (12701 / 100, 3681 / 100) (127, 184 / 5)) = 0
    rw [segClosest_left]
    exact dist2_self _
  · show dist2 (12701 / 100, 3681 / 100)
        (segClosest (127, 184 / 5) (12701 / 100, 3681 / 100) (12701 / 100, 3681 / 100)) = 0
    rw [segClosest_right _ _ hden]
    exact dist2_self _

/-- C6: the resolver issues exactly one request per consecutive snapped
pair, in order, each with the templated URL
`base/driving/lon1,lat1;lon2,lat2`, query parameters `geometries=geojson`,
`overview=full` and the access token, and a 10 s timeout (within the
10–15 s bound); and any leg whose response is not accepted (non-200
status, timeout, request error, or empty routes array) contributes
nothing while leaving the processing of every other leg unchanged. -/
theorem directions_requests_spec (snapped : List (ℚ × ℚ)) :
    (mkRequests snapped).length = snapped.length - 1
    ∧ ((mkRequests snapped).map fun r => (r.src, r.dst)) = snapped.zip snapped.tail
    ∧ (∀ r ∈ mkRequests snapped,
        r.url = MAPBOX_BASE ++ "/" ++ api_mode ++ "/" ++ coordString r.src r.dst
        ∧ r.geometries = "geojson" ∧ r.overview = "full"
        ∧ r.access_token = MAPBOX_TOKEN
        ∧ 10 ≤ r.timeout ∧ r.timeout ≤ 15)
    ∧ ∀ (xs zs : List LegResponse) (r : LegResponse), legAccepts r = false →
        processLegs (xs ++ r :: zs) = processLegs (xs ++ zs) := by
  refine ⟨?_, ?_, ?_, ?_⟩
  · rw [mkRequests, List.length_map, List.length_zip, List.length_tail]
    exact min_eq_right (Nat.sub_le _ _)
  · rw [mkRequests, List.map_map]
    have he : ((fun r : DirectionsRequest => (r.src, r.dst))
        ∘ fun pq : (ℚ × ℚ) × (ℚ × ℚ) => mkRequest pq.1 pq.2) = id := by
      funext pq
      rfl
    rw [he, List.map_id]
  · intro r hr
    rw [mkRequests] at hr
    obtain ⟨pq, hpq, rfl⟩ := List.mem_map.mp hr
    refine ⟨rfl, rfl, rfl, rfl, ?_, ?_⟩
    · show (10 : ℕ) ≤ 10
      exact le_refl _
    · show (10 : ℕ) ≤ 15
      norm_num
  · intro xs zs r hr
    rw [processLegs, processLegs, List.foldr_append, List.foldr_append,
      List.foldr_cons, stepLeg_skip hr]

/-- C6 witness: a timed-out leg inserted in front of an accepted leg does
not change what the remaining legs produce. -/
theorem directions_requests_witness :
    processLegs [LegResponse.timeout, LegResponse.http 200 [legC]]
      = processLegs [LegResponse.http 200 [legC]] := by
  have h := directions_requests_spec [(0, 0), (1, 1)]
  exact h.2.2.2 [] [LegResponse.http 200 [legC]] LegResponse.timeout rfl

/-- C7 amended: the accumulated duration and distance are the sums of the
per-leg values reported by each accepted leg's first route (absent values
counting 0), and a successful commit stores those sums divided by 60
(minutes) and by 1000 (kilometres) — not the raw seconds and meters. -/
theorem resolve_aggregates_sums (st : SessState) (stops : List String)
    (rs : List LegResponse) :
    (processLegs rs).1 = (acceptedRoutes rs).map (fun rt => rt.coordinates)
    ∧ (processLegs rs).2.1 = ((acceptedRoutes rs).map fun rt => rt.duration.getD 0).sum
    ∧ (processLegs rs).2.2 = ((acceptedRoutes rs).map fun rt => rt.distance.getD 0).sum
    ∧ ((processLegs rs).1 ≠ [] →
        (optimizeUpdate st stops rs).duration
            = ((acceptedRoutes rs).map fun rt => rt.duration.getD 0).sum / 60
          ∧ (optimizeUpdate st stops rs).distance
            = ((acceptedRoutes rs).map fun rt => rt.distance.getD 0).sum / 1000) := by
  have hp := processLegs_eq_accepted rs
  refine ⟨by rw [hp], by rw [hp], by rw [hp], ?_⟩
  intro h
  rw [optimizeUpdate_commit h]
  constructor
  · show (processLegs rs).2.1 / 60 = _
    rw [hp]
  · show (processLegs rs).2.2 / 1000 = _
    rw [hp]

/-- C7 amended witness: scenario C's single accepted leg (120 s, 1500 m)
commits the converted sums. -/
theorem resolve_aggregates_witness :
    (optimizeUpdate ⟨[], [], 0, 0⟩ ["s", "e"] [LegResponse.http 200 [legC]]).duration
        = ((acceptedRoutes [LegResponse.http 200 [legC]]).map
            fun rt => rt.duration.getD 0).sum / 60
    ∧ (optimizeUpdate ⟨[], [], 0, 0⟩ ["s", "e"] [LegResponse.http 200 [legC]]).distance
        = ((acceptedRoutes [LegResponse.http 200 [legC]]).map
            fun rt => rt.distance.getD 0).sum / 1000 :=
  (resolve_aggregates_sums ⟨[], [], 0, 0⟩ ["s", "e"]
    [LegResponse.http 200 [legC]]).2.2.2 (by decide)

/-- C7 counterexample: the single-leg response with duration 120 and
distance 1500 commits duration 2 (minutes) and distance 1.5 (kilometres),
not 120 s and 1500 m as the claim states. -/
theorem resolve_units_counterexample :
    (optimizeUpdate ⟨[], [], 0, 0⟩ ["s", "e"] [LegResponse.http 200 [legC]]).segments
        = [[(127, 184 / 5), (12701 / 100, 3681 / 100)]]
    ∧ (optimizeUpdate ⟨[], [], 0, 0⟩ ["s", "e"] [LegResponse.http 200 [legC]]).duration = 2
    ∧ (optimizeUpdate ⟨[], [], 0, 0⟩ ["s", "e"]
        [LegResponse.http 200 [legC]]).distance = 3 / 2
    ∧ ¬ (optimizeUpdate ⟨[], [], 0, 0⟩ ["s", "e"]
        [LegResponse.http 200 [legC]]).duration = 120
    ∧ ¬ (optimizeUpdate ⟨[], [], 0, 0⟩ ["s", "e"]
        [LegResponse.http 200 [legC]]).distance = 1500 := by
  have h : optimizeUpdate ⟨[], [], 0, 0⟩ ["s", "e"] [LegResponse.http 200 [legC]]
      = { order := ["s", "e"]
        , segments := [legC.coordinates]
        , duration := (120 + 0) / 60
        , distance := (1500 + 0) / 1000 } :=
    optimizeUpdate_commit (by decide)
  rw [h]
  refine ⟨rfl, by norm_num, by norm_num, by norm_num, by norm_num⟩

/-- C8 counterexample: the graph request uses a fixed 3000 m radius (not
the claimed 5000 m default) and network type `"all"` (not a network type
implied by the travel profile, which `load_graph` does not even take). -/
theorem graph_request_counterexample :
    (load_graph_request CHEONAN_CENTER.1 CHEONAN_CENTER.2).dist = 3000
    ∧ ¬ (load_graph_request CHEONAN_CENTER.1 CHEONAN_CENTER.2).dist = 5000
    ∧ (load_graph_request CHEONAN_CENTER.1 CHEONAN_CENTER.2).network_type = "all"
    ∧ ¬ ((load_graph_request CHEONAN_CENTER.1 CHEONAN_CENTER.2).network_type = "drive"
        ∨ (load_graph_request CHEONAN_CENTER.1 CHEONAN_CENTER.2).network_type = "walk") := by
  refine ⟨rfl, by decide, rfl, by decide⟩

/-- C8 amended: every graph request uses the queried center, a fixed
3000 m radius, and network type `"all"` irrespective of profile; and the
`st.cache_data` memoization keyed by the center arguments makes a repeated
query for the same center return the memoized result without re-fetching
(the memo table is left unchanged). -/
theorem load_graph_spec (fetch : GraphRequest → Option RoadGraph)
    (cache : List ((ℚ × ℚ) × Option RoadGraph)) (lat lon : ℚ) :
    (load_graph_request lat lon).center_lat = lat
    ∧ (load_graph_request lat lon).center_lon = lon
    ∧ (load_graph_request lat lon).dist = 3000
    ∧ (load_graph_request lat lon).network_type = "all"
    ∧ ∀ g cache', load_graph_cached fetch cache lat lon = (g, cache') →
        load_graph_cached fetch cache' lat lon = (g, cache') := by
  refine ⟨rfl, rfl, rfl, rfl, ?_⟩
  intro g cache' h
  rw [load_graph_cached] at h
  cases hc : cacheLookup cache (lat, lon) with
  | some v =>
      rw [hc] at h
      simp only [Prod.mk.injEq] at h
      obtain ⟨rfl, rfl⟩ := h
      rw [load_graph_cached, hc]
  | none =>
      rw [hc] at h
      simp only [Prod.mk.injEq] at h
      obtain ⟨rfl, rfl⟩ := h
      have hnone : cache.find? (fun e => decide (e.1 = (lat, lon))) = none := by
        rw [cacheLookup] at hc
        cases hfind : cache.find? (fun e => decide (e.1 = (lat, lon))) with
        | none => rfl
        | some e => rw [hfind] at hc; simp at hc
      have hhit : cacheLookup (cache ++ [((lat, lon), load_graph fetch lat lon)])
          (lat, lon) = some (load_graph fetch lat lon) := by
        rw [cacheLookup, List.find?_append, hnone]
        simp [List.find?]
      rw [load_graph_cached, hhit]

/-- C8 amended witness: a fresh fetch for center (0, 0) is memoized, and a
second identical query returns the memoized result unchanged. -/
theorem load_graph_spec_witness :
    load_graph_cached demoFetch [((0, 0), some ⟨[demoEdge]⟩)] 0 0
      = (some ⟨[demoEdge]⟩, [((0, 0), some ⟨[demoEdge]⟩)]) :=
  (load_graph_spec demoFetch [] 0 0).2.2.2.2 (some ⟨[demoEdge]⟩)
    [((0, 0), some ⟨[demoEdge]⟩)] rfl

/-- C9: a stop-name lookup is `find?` over the catalog — the first
matching stop in insertion order, deterministically and without error —
and both the snapping lookup and the fallback loop go through it: whenever
the lookup succeeds, the result is a matching stop such that no
earlier-inserted catalog entry matches the name. -/
theorem lookup_first_match (catalog : List Stop) (nm : String) :
    lookupStop catalog nm = catalog.find? (fun s => s.name == nm)
    ∧ (∀ s, lookupStop catalog nm = some s →
        s.name = nm ∧ ∃ i, i < catalog.length ∧ catalog[i]? = some s ∧
          ∀ j t, j < i → catalog[j]? = some t → t.name ≠ nm)
    ∧ ∀ names, snapFallback catalog names
        = names.filterMap fun nm' =>
            (catalog.find? fun s => s.name == nm').map fun r => (r.lon, r.lat) := by
  refine ⟨lookupStop_eq_find catalog nm, fun s h => lookupStop_first h, ?_⟩
  intro names
  rw [snapFallback]
  exact List.filterMap_congr fun nm' _ => by rw [lookupStop_eq_find]

/-- C9 witness: with two catalog entries both named "X", the lookup
returns the first-inserted one. -/
theorem lookup_first_match_witness :
    dupStopA.name = "X"
    ∧ ∃ i, i < ([dupStopA, dupStopB] : List Stop).length
        ∧ ([dupStopA, dupStopB] : List Stop)[i]? = some dupStopA
        ∧ ∀ j t, j < i → ([dupStopA, dupStopB] : List Stop)[j]? = some t
            → t.name ≠ "X" :=
  (lookup_first_match [dupStopA, dupStopB] "X").2.1 dupStopA rfl

/-- C10: for a stop resolvable in the catalog, the coordinate handed to
the directions request is not the raw catalog coordinate but the stop's
closest point on the edge minimizing the planar distance over all edges
(first edge on ties); and when the edge set is absent or empty the raw
catalog coordinates are used instead. -/
theorem snap_projects_to_nearest_edge (catalog : List Stop) (es : List Polyline)
    (nm : String) (r : Stop) (h : lookupStop catalog nm = some r) :
    snapOne catalog none nm = some (r.lon, r.lat)
    ∧ snapOne catalog (some []) nm = some (r.lon, r.lat)
    ∧ (es ≠ [] → ∃ e, e ∈ es
        ∧ snapOne catalog (some es) nm = some (closestPointOn e (r.lon, r.lat))
        ∧ ∀ e' ∈ es, polyDist2 e (r.lon, r.lat) ≤ polyDist2 e' (r.lon, r.lat)) := by
  refine ⟨by simp only [snapOne, h], by simp only [snapOne, h, selectMin], ?_⟩
  intro hne
  cases hsel : selectMin (fun e => polyDist2 e (r.lon, r.lat)) es with
  | none => exact absurd (selectMin_eq_none hsel) hne
  | some e =>
      obtain ⟨hmem, hmin⟩ := selectMin_spec hsel
      exact ⟨e, hmem, by simp only [snapOne, h, hsel], hmin⟩

/-- C10 witness: stop "A" snaps onto the only available edge, which
trivially minimizes the distance; with no or empty edges its raw catalog
coordinates are used. -/
theorem snap_projects_witness :
    snapOne [stopA, stopB] none "A" = some (stopA.lon, stopA.lat)
    ∧ snapOne [stopA, stopB] (some []) "A" = some (stopA.lon, stopA.lat)
    ∧ ([demoEdge] ≠ ([] : List Polyline) → ∃ e, e ∈ [demoEdge]
        ∧ snapOne [stopA, stopB] (some [demoEdge]) "A"
          = some (closestPointOn e (stopA.lon, stopA.lat))
        ∧ ∀ e' ∈ [demoEdge],
            polyDist2 e (stopA.lon, stopA.lat) ≤ polyDist2 e' (stopA.lon, stopA.lat)) :=
  snap_projects_to_nearest_edge [stopA, stopB] [demoEdge] "A" stopA rfl

end DRT
